import Mathlib

/-!
Verification development for the icon-generation client
`generate_nano_icons.py` of the GuessMyWord repository.

The script submits one text-to-image job per subject, polls a status
endpoint until the job reports a terminal flag, downloads the result
image and writes it under a fixed output directory.  We embed the
script shallowly: network responses become values supplied by an
environment, the unbounded `while True` polling loop becomes a
fuel-indexed recursion (a result of `none` means the loop is still
running after that many iterations), and raised exceptions become
error values.  Filesystem effects are recorded in a trace.
-/

namespace NanoIcons

/-! ## Subject-name normalization (line 66: `animal.lower().replace(' ', '_')`) -/

/-- Character-wise embedding of the Python `str.lower()` call (ASCII case
mapping, as performed by `Char.toLower`). -/
def lowerStr (s : String) : String := ⟨s.data.map Char.toLower⟩

/-- One character of the Python `str.replace(' ', '_')` call: a space turns
into an underscore, anything else is kept. -/
def underscoreChar (c : Char) : Char := if c = ' ' then '_' else c

/-- Embedding of the Python `.replace(' ', '_')` call: every space becomes
an underscore. -/
def underscoreSpaces (s : String) : String := ⟨s.data.map underscoreChar⟩

/-- The file-stem normalization `animal.lower().replace(' ', '_')` used when
the output path is built. -/
def normalize (s : String) : String := underscoreSpaces (lowerStr s)

/-- The output directory `generated_avatars` (`OUT_DIR` in the script). -/
def OUT_DIR : String := "generated_avatars"

/-! ## The dataset loader `load_animals` (lines 23 to 30).

A CSV file is embedded as a list of rows, each row a list of cells.  The
loader drops the header row, skips every row that is empty or whose first
cell strips to the empty string, and yields the stripped first cell of
each remaining row. -/

/-- Embedding of the Python `str.strip()` call: remove leading and
trailing whitespace characters. -/
def pyStrip (s : String) : String :=
  ⟨(((s.data.dropWhile Char.isWhitespace).reverse.dropWhile
      Char.isWhitespace).reverse)⟩

/-- One iteration of the loader body: `if not row or not row[0].strip():
continue` followed by `yield row[0].strip()`. -/
def stripFirst : List String → Option String
  | [] => none
  | c :: _ => if pyStrip c = "" then none else some (pyStrip c)

/-- Embedding of `load_animals`: skip the header row, then apply
`stripFirst` to every remaining row. -/
def load_animals (rows : List (List String)) : List String :=
  (rows.drop 1).filterMap stripFirst

/-- Whether the loader keeps a row: the row is nonempty and its first cell
does not strip to the empty string. -/
def keepRow : List String → Bool
  | [] => false
  | c :: _ => !(pyStrip c = "")

/-- The subject name read off a kept row: its stripped first cell. -/
def firstEntry : List String → String
  | [] => ""
  | c :: _ => pyStrip c

/-! ## The remote job protocol -/

/-- The JSON payload `data` of a status response: `successFlag` may be any
integer or absent, `errorMessage` and `response.resultImageUrl` may be
absent. -/
structure StatusData where
  successFlag : Option Int
  errorMessage : Option String
  resultImageUrl : Option String
deriving DecidableEq

/-- One response of the status endpoint: `httpOk = false` means
`s.raise_for_status()` raises (transport fault or non-2xx status). -/
structure StatusResp where
  httpOk : Bool
  data : StatusData
deriving DecidableEq

/-- The response to the final `requests.get(url)` fetching the result
image. -/
structure FetchResp where
  httpOk : Bool
  content : List Nat
deriving DecidableEq

/-- The environment a single subject is processed against: the outcome of
the submission call (`submitOk = false` models a transport fault or a
non-2xx response, which makes `r.raise_for_status()` raise), the sequence
of status responses (the value returned by the i-th status query), and the
response of the result-URL fetch. -/
structure Env where
  submitOk : Bool
  statuses : Nat → StatusResp
  fetch : String → FetchResp

/-- Errors raised inside `generate`; they propagate to `main`, which
catches and reports them. -/
inductive GenError where
  | submitHttpError
  | statusHttpError
  | taskFailed (msg : Option String)
  | missingResultUrl
  | downloadHttpError
deriving DecidableEq

/-- The value a terminating run of `generate` produces: a saved file (path
and bytes written) or a raised error. -/
inductive GenResult where
  | ok (path : String) (content : List Nat)
  | err (e : GenError)
deriving DecidableEq

/-- The effects a run of `generate` performs: how many status queries were
issued, whether the output directory was created, and the file writes. -/
structure Trace where
  statusQueries : Nat
  mkdirCalled : Bool
  writes : List (String × List Nat)
deriving DecidableEq

/-- What one iteration of the polling loop decides, `none` meaning the
flag is non-terminal and the loop sleeps and repeats. -/
inductive PollOutcome where
  | fetchResult (url : Option String)
  | statusError
  | failed (msg : Option String)
deriving DecidableEq

/-- One iteration of the polling loop body (lines 52 to 72): raise on an
HTTP error, branch on `flag == 1`, then `flag in (2, 3)`, otherwise sleep
and repeat. -/
def pollStep (resp : StatusResp) : Option PollOutcome :=
  if resp.httpOk = false then some PollOutcome.statusError
  else if resp.data.successFlag = some 1 then
    some (PollOutcome.fetchResult resp.data.resultImageUrl)
  else if resp.data.successFlag = some 2 ∨ resp.data.successFlag = some 3 then
    some (PollOutcome.failed resp.data.errorMessage)
  else none

/-- A status payload the loop treats as still pending: the flag is none of
the terminal values 1, 2, 3 (absence included). -/
def pending (d : StatusData) : Prop :=
  d.successFlag ≠ some 1 ∧ d.successFlag ≠ some 2 ∧ d.successFlag ≠ some 3

instance (d : StatusData) : Decidable (pending d) := by
  unfold pending; infer_instance

/-- The `while True` polling loop, indexed by fuel: `poll env fuel i` runs
up to `fuel` further iterations starting with the i-th status query, and
returns the number of queries issued so far together with the decision
that ended the loop, or `none` if the loop is still running after the
fuel is spent. -/
def poll (env : Env) : Nat → Nat → Option (Nat × PollOutcome)
  | 0, _ => none
  | fuel + 1, i =>
    match pollStep (env.statuses i) with
    | some o => some (i + 1, o)
    | none => poll env fuel (i + 1)

/-- Embedding of `generate` (lines 34 to 72) for one subject.  The first
component is `none` while the polling loop is still running after `fuel`
iterations, `some` once the call returns or raises; the second component
records the effects performed up to that point. -/
def generate (env : Env) (animal : String) (fuel : Nat) :
    Option GenResult × Trace :=
  if env.submitOk = false then
    (some (GenResult.err GenError.submitHttpError), ⟨0, false, []⟩)
  else
    match poll env fuel 0 with
    | none => (none, ⟨fuel, false, []⟩)
    | some (q, PollOutcome.statusError) =>
      (some (GenResult.err GenError.statusHttpError), ⟨q, false, []⟩)
    | some (q, PollOutcome.failed msg) =>
      (some (GenResult.err (GenError.taskFailed msg)), ⟨q, false, []⟩)
    | some (q, PollOutcome.fetchResult none) =>
      (some (GenResult.err GenError.missingResultUrl), ⟨q, false, []⟩)
    | some (q, PollOutcome.fetchResult (some url)) =>
      if (env.fetch url).httpOk = false then
        (some (GenResult.err GenError.downloadHttpError), ⟨q, false, []⟩)
      else
        (some (GenResult.ok (OUT_DIR ++ "/" ++ normalize animal ++ ".png")
                 (env.fetch url).content),
         ⟨q, true, [(OUT_DIR ++ "/" ++ normalize animal ++ ".png",
                     (env.fetch url).content)]⟩)

/-- Whether a per-subject result is a saved file. -/
def isSaved : Option GenResult → Bool
  | some (GenResult.ok _ _) => true
  | _ => false

/-- Whether a per-subject result is a raised error. -/
def isError : Option GenResult → Bool
  | some (GenResult.err _) => true
  | _ => false

/-- The `for` loop of `main` (lines 76 to 80): process subjects in order;
a subject whose `generate` call returns (normally or by raising) is
recorded and the loop moves on, while a subject whose polling loop is
still running blocks everything after it. -/
def mainLoop (envOf : String → Env) (fuel : Nat) :
    List String → List (String × (Option GenResult × Trace))
  | [] => []
  | a :: rest =>
    match (generate (envOf a) a fuel).1 with
    | none => [(a, generate (envOf a) a fuel)]
    | some _ => (a, generate (envOf a) a fuel) :: mainLoop envOf fuel rest

/-- Embedding of `main`: load the subjects, then run the batch loop. -/
def main (envOf : String → Env) (fuel : Nat) (rows : List (List String)) :
    List (String × (Option GenResult × Trace)) :=
  mainLoop envOf fuel (load_animals rows)

/-! ## Basic lemmas about characters and normalization -/

theorem char_toNat_ofNat_valid (n : Nat) (h : n.isValidChar) :
    (Char.ofNat n).toNat = n := by
  rw [Char.ofNat, dif_pos h]
  rfl

theorem toLower_eq (c : Char) :
    Char.toLower c =
      if c.toNat ≥ 65 ∧ c.toNat ≤ 90 then Char.ofNat (c.toNat + 32) else c := rfl

theorem toLower_toNat (c : Char) :
    (Char.toLower c).toNat =
      if c.toNat ≥ 65 ∧ c.toNat ≤ 90 then c.toNat + 32 else c.toNat := by
  by_cases h : c.toNat ≥ 65 ∧ c.toNat ≤ 90
  · have hv : Nat.isValidChar (c.toNat + 32) := Or.inl (by omega)
    rw [toLower_eq, if_pos h, if_pos h]
    exact char_toNat_ofNat_valid _ hv
  · rw [toLower_eq, if_neg h, if_neg h]

theorem toLower_idem (c : Char) :
    Char.toLower (Char.toLower c) = Char.toLower c := by
  have hnot : ¬ ((Char.toLower c).toNat ≥ 65 ∧ (Char.toLower c).toNat ≤ 90) := by
    rw [toLower_toNat]
    by_cases h : c.toNat ≥ 65 ∧ c.toNat ≤ 90
    · rw [if_pos h]; omega
    · rw [if_neg h]; exact h
  conv_lhs => rw [toLower_eq]
  rw [if_neg hnot]

theorem normChar_idem (c : Char) :
    underscoreChar (Char.toLower (underscoreChar (Char.toLower c)))
      = underscoreChar (Char.toLower c) := by
  by_cases hsp : Char.toLower c = ' '
  · rw [hsp]
    decide
  · rw [show underscoreChar (Char.toLower c) = Char.toLower c from if_neg hsp]
    rw [toLower_idem]
    exact if_neg hsp

theorem normalize_idem (s : String) : normalize (normalize s) = normalize s := by
  show underscoreSpaces (lowerStr (underscoreSpaces (lowerStr s)))
      = underscoreSpaces (lowerStr s)
  simp only [underscoreSpaces, lowerStr, List.map_map]
  exact congrArg String.mk (List.map_congr_left fun c _ => normChar_idem c)

/-! ## Claims about normalization and the loader -/

/-- C8: subject-name normalization is deterministic (it is a function),
maps "Red Panda" to "red_panda", and applying it twice yields the same
result as applying it once. -/
theorem claim8_normalize_idempotent :
    normalize "Red Panda" = "red_panda"
      ∧ ∀ s : String, normalize (normalize s) = normalize s :=
  ⟨by decide, normalize_idem⟩

theorem filterMap_stripFirst_eq (l : List (List String)) :
    l.filterMap stripFirst = (l.filter keepRow).map firstEntry := by
  induction l with
  | nil => rfl
  | cons row rest ih =>
    rw [List.filterMap_cons, List.filter_cons]
    cases row with
    | nil =>
      rw [show stripFirst [] = none from rfl, show keepRow [] = false from rfl]
      simpa using ih
    | cons c cs =>
      by_cases h : pyStrip c = ""
      · rw [show stripFirst (c :: cs) = none by simp [stripFirst, h],
            show keepRow (c :: cs) = false by simp [keepRow, h]]
        simpa using ih
      · rw [show stripFirst (c :: cs) = some (pyStrip c) by simp [stripFirst, h],
            show keepRow (c :: cs) = true by simp [keepRow, h]]
        simp [firstEntry, ih]

/-! ## Lemmas about the polling loop -/

theorem pollStep_eq_none_iff (resp : StatusResp) :
    pollStep resp = none ↔ resp.httpOk = true ∧ pending resp.data := by
  cases hb : resp.httpOk with
  | false => simp [pollStep, hb]
  | true =>
    by_cases h1 : resp.data.successFlag = some 1
    · simp [pollStep, hb, h1, pending]
    · by_cases h23 : resp.data.successFlag = some 2 ∨ resp.data.successFlag = some 3
      · rcases h23 with h | h <;> simp [pollStep, hb, h1, h, pending]
      · push_neg at h23
        simp [pollStep, hb, h1, h23, pending, h23.1, h23.2]

theorem pollStep_success (resp : StatusResp) (hok : resp.httpOk = true)
    (h1 : resp.data.successFlag = some 1) :
    pollStep resp = some (PollOutcome.fetchResult resp.data.resultImageUrl) := by
  simp [pollStep, hok, h1]

theorem pollStep_failure (resp : StatusResp) (hok : resp.httpOk = true)
    (h23 : resp.data.successFlag = some 2 ∨ resp.data.successFlag = some 3) :
    pollStep resp = some (PollOutcome.failed resp.data.errorMessage) := by
  rcases h23 with h | h <;> simp [pollStep, hok, h]

theorem poll_succ (env : Env) (fuel i : Nat)
    (h : pollStep (env.statuses i) = none) :
    poll env (fuel + 1) i = poll env fuel (i + 1) := by
  simp [poll, h]

theorem poll_hit (env : Env) (fuel i : Nat) (o : PollOutcome)
    (h : pollStep (env.statuses i) = some o) :
    poll env (fuel + 1) i = some (i + 1, o) := by
  simp [poll, h]

theorem poll_skip (env : Env) :
    ∀ (n fuel i : Nat),
      (∀ j, j < n → pollStep (env.statuses (i + j)) = none) →
      poll env (n + fuel) i = poll env fuel (i + n)
  | 0, fuel, i, _ => by simp
  | n + 1, fuel, i, h => by
    have h0 : pollStep (env.statuses i) = none := by
      simpa using h 0 (Nat.succ_pos n)
    have hrest : ∀ j, j < n → pollStep (env.statuses (i + 1 + j)) = none := by
      intro j hj
      have := h (j + 1) (by omega)
      rwa [show i + (j + 1) = i + 1 + j by omega] at this
    calc poll env (n + 1 + fuel) i
        = poll env (n + fuel) (i + 1) := by
          rw [show n + 1 + fuel = (n + fuel) + 1 by omega]
          exact poll_succ env (n + fuel) i h0
      _ = poll env fuel (i + 1 + n) := poll_skip env n fuel (i + 1) hrest
      _ = poll env fuel (i + (n + 1)) := by
          rw [show i + 1 + n = i + (n + 1) by omega]

theorem poll_first_hit (env : Env) (N : Nat) (o : PollOutcome)
    (hpend : ∀ j, j < N → pollStep (env.statuses j) = none)
    (hhit : pollStep (env.statuses N) = some o)
    (fuel : Nat) (hf : N + 1 ≤ fuel) :
    poll env fuel 0 = some (N + 1, o) := by
  have hsplit : fuel = N + (fuel - N - 1 + 1) := by omega
  rw [hsplit, poll_skip env N (fuel - N - 1 + 1) 0
        (fun j hj => by simpa using hpend j hj)]
  simpa using poll_hit env (fuel - N - 1) N o hhit

theorem poll_none_of_pending (env : Env)
    (h : ∀ i, pollStep (env.statuses i) = none) :
    ∀ fuel i, poll env fuel i = none
  | 0, _ => rfl
  | fuel + 1, i => by
    rw [poll_succ env fuel i (h i)]
    exact poll_none_of_pending env h fuel (i + 1)

theorem generate_poll_some (env : Env) (a : String) (fuel q : Nat)
    (o : PollOutcome) (hsub : env.submitOk = true)
    (hp : poll env fuel 0 = some (q, o)) :
    (generate env a fuel).2.statusQueries = q
      ∧ ∃ r, (generate env a fuel).1 = some r := by
  cases o with
  | statusError => simp [generate, hsub, hp]
  | failed msg => simp [generate, hsub, hp]
  | fetchResult u =>
    cases u with
    | none => simp [generate, hsub, hp]
    | some url =>
      cases hf : (env.fetch url).httpOk with
      | false => simp [generate, hsub, hp, hf]
      | true => simp [generate, hsub, hp, hf]

/-- C7: the loader yields subjects in input row order, dropping the header
row and skipping exactly the rows that are empty or whose first cell is
empty or whitespace-only; on the example table the yield is
["Dog", "Cat"]. -/
theorem claim7_loader :
    (∀ rows : List (List String),
        load_animals rows = ((rows.drop 1).filter keepRow).map firstEntry)
      ∧ load_animals [["Animal"], ["Dog"], [""], ["Cat"]] = ["Dog", "Cat"] :=
  ⟨fun rows => filterMap_stripFirst_eq (rows.drop 1), by decide⟩

/-! ## Lemmas about generate and the batch loop -/

theorem generate_not_saved_no_writes (env : Env) (a : String) (fuel : Nat)
    (h : isSaved (generate env a fuel).1 = false) :
    (generate env a fuel).2.mkdirCalled = false
      ∧ (generate env a fuel).2.writes = [] := by
  cases hs : env.submitOk with
  | false => simp [generate, hs]
  | true =>
    cases hp : poll env fuel 0 with
    | none => simp [generate, hs, hp]
    | some x =>
      obtain ⟨q, o⟩ := x
      cases o with
      | statusError => simp [generate, hs, hp]
      | failed msg => simp [generate, hs, hp]
      | fetchResult u =>
        cases u with
        | none => simp [generate, hs, hp]
        | some url =>
          cases hf : (env.fetch url).httpOk with
          | false => simp [generate, hs, hp, hf]
          | true => simp [generate, hs, hp, hf, isSaved] at h

theorem mem_mainLoop (envOf : String → Env) (fuel : Nat) :
    ∀ (animals : List String) (e : String × (Option GenResult × Trace)),
      e ∈ mainLoop envOf fuel animals → e.2 = generate (envOf e.1) e.1 fuel
  | [], e, h => by simp [mainLoop] at h
  | a :: rest, e, h => by
    unfold mainLoop at h
    cases hg : (generate (envOf a) a fuel).1 with
    | none =>
      rw [hg] at h
      simp at h
      rw [h]
    | some r =>
      rw [hg] at h
      simp at h
      rcases h with h | h
      · rw [h]
      · exact mem_mainLoop envOf fuel rest e h

theorem mainLoop_eq_map (envOf : String → Env) (fuel : Nat) :
    ∀ animals : List String,
      (∀ a ∈ animals, (generate (envOf a) a fuel).1.isSome = true) →
      mainLoop envOf fuel animals
        = animals.map fun a => (a, generate (envOf a) a fuel)
  | [], _ => rfl
  | a :: rest, hterm => by
    obtain ⟨r, hr⟩ :=
      Option.isSome_iff_exists.mp (hterm a (List.mem_cons_self a rest))
    have hcons : mainLoop envOf fuel (a :: rest)
        = (a, generate (envOf a) a fuel) :: mainLoop envOf fuel rest := by
      conv_lhs => rw [mainLoop, hr]
    rw [hcons, List.map_cons,
      mainLoop_eq_map envOf fuel rest
        (fun b hb => hterm b (List.mem_cons_of_mem a hb))]

/-- All recorded runs in a batch produced no filesystem effect: the output
directory was never created and no file was written. -/
def noFilesystemEffects (l : List (String × (Option GenResult × Trace))) : Prop :=
  ∀ e ∈ l, e.2.2.mkdirCalled = false ∧ e.2.2.writes = []

/-- No recorded run in a batch saved a file. -/
def nothingSaved (l : List (String × (Option GenResult × Trace))) : Prop :=
  ∀ e ∈ l, isSaved e.2.1 = false

instance (l : List (String × (Option GenResult × Trace))) :
    Decidable (nothingSaved l) := by
  unfold nothingSaved; infer_instance

/-- A status sequence that never carries a terminal flag (1, 2 or 3). -/
def neverTerminal (env : Env) : Prop := ∀ i, pending (env.statuses i).data

/-! ## Claims about the per-subject generation routine -/

/-- C1: if the first N status responses are HTTP-successful and carry a
successFlag other than 1, 2 and 3 (absence included) and the next response
carries flag 1, the polling loop issues exactly N + 1 status queries and
then proceeds to fetch the result URL of that response; the trace of
`generate` records exactly N + 1 status queries.  Every non-terminal flag
value merely sends the loop through another sleep-and-query round. -/
theorem claim1_poll_count (env : Env) (a : String) (N fuel : Nat)
    (hsub : env.submitOk = true)
    (hok : ∀ i, i ≤ N → (env.statuses i).httpOk = true)
    (hpend : ∀ i, i < N → pending (env.statuses i).data)
    (hsucc : (env.statuses N).data.successFlag = some 1)
    (hf : N + 1 ≤ fuel) :
    poll env fuel 0
        = some (N + 1,
            PollOutcome.fetchResult (env.statuses N).data.resultImageUrl)
      ∧ (generate env a fuel).2.statusQueries = N + 1 := by
  have hpoll : poll env fuel 0
      = some (N + 1,
          PollOutcome.fetchResult (env.statuses N).data.resultImageUrl) :=
    poll_first_hit env N _
      (fun j hj => (pollStep_eq_none_iff _).mpr
        ⟨hok j (Nat.le_of_lt hj), hpend j hj⟩)
      (pollStep_success _ (hok N (Nat.le_refl N)) hsucc) fuel hf
  exact ⟨hpoll, (generate_poll_some env a fuel _ _ hsub hpoll).1⟩

/-- C2: if the polling loop reaches a status response carrying flag 2 or
flag 3, `generate` raises the task-failure error carrying the
service-provided errorMessage, creates no file and does not even create
the output directory: the failure is surfaced, not silently dropped. -/
theorem claim2_failure_surfaced (env : Env) (a : String) (N fuel : Nat)
    (hsub : env.submitOk = true)
    (hok : ∀ i, i ≤ N → (env.statuses i).httpOk = true)
    (hpend : ∀ i, i < N → pending (env.statuses i).data)
    (hfail : (env.statuses N).data.successFlag = some 2
        ∨ (env.statuses N).data.successFlag = some 3)
    (hf : N + 1 ≤ fuel) :
    generate env a fuel
      = (some (GenResult.err
            (GenError.taskFailed (env.statuses N).data.errorMessage)),
         ⟨N + 1, false, []⟩) := by
  have hpoll : poll env fuel 0
      = some (N + 1, PollOutcome.failed (env.statuses N).data.errorMessage) :=
    poll_first_hit env N _
      (fun j hj => (pollStep_eq_none_iff _).mpr
        ⟨hok j (Nat.le_of_lt hj), hpend j hj⟩)
      (pollStep_failure _ (hok N (Nat.le_refl N)) hfail) fuel hf
  simp [generate, hsub, hpoll]

/-- C3 as amended: the polling loop has no iteration bound or timeout, but
an HTTP-level failure of a status query also ends it (by raising).  The
per-subject routine runs forever exactly when the submission succeeds and
every status response is HTTP-successful and carries a non-terminal flag;
equivalently, it terminates only when the submission fails, some status
query fails at the HTTP level, or some response carries flag 1, 2 or 3. -/
theorem claim3_unbounded_polling (env : Env) (a : String) :
    (∀ fuel, (generate env a fuel).1 = none) ↔
      (env.submitOk = true
        ∧ ∀ i, (env.statuses i).httpOk = true ∧ pending (env.statuses i).data) := by
  constructor
  · intro h
    have hsub : env.submitOk = true := by
      cases hb : env.submitOk with
      | true => rfl
      | false =>
        have h0 := h 0
        simp [generate, hb] at h0
    refine ⟨hsub, fun i => Nat.strongRecOn i ?_⟩
    intro i ih
    cases hps : pollStep (env.statuses i) with
    | none => exact (pollStep_eq_none_iff _).mp hps
    | some o =>
      exfalso
      have hpoll := poll_first_hit env i o
        (fun j hj => (pollStep_eq_none_iff _).mpr (ih j hj))
        hps (i + 1) (Nat.le_refl _)
      obtain ⟨r, hr⟩ := (generate_poll_some env a (i + 1) (i + 1) o hsub hpoll).2
      rw [h (i + 1)] at hr
      exact Option.noConfusion hr
  · rintro ⟨hsub, hall⟩ fuel
    have hnone : poll env fuel 0 = none :=
      poll_none_of_pending env
        (fun i => (pollStep_eq_none_iff _).mpr (hall i)) fuel 0
    simp [generate, hsub, hnone]

/-- C4: a subject whose submission call fails (transport fault or
non-success HTTP status) is failed immediately: the polling loop is never
entered, zero status queries are issued, and nothing touches the
filesystem. -/
theorem claim4_submit_failure (env : Env) (a : String) (fuel : Nat)
    (h : env.submitOk = false) :
    generate env a fuel
      = (some (GenResult.err GenError.submitHttpError), ⟨0, false, []⟩) := by
  simp [generate, h]

/-- C5 as amended: a subject that completes successfully produces exactly
one file write, to `<normalized-subject>.png` inside the output
directory, and the bytes written are exactly the bytes fetched from the
result URL; the file is therefore non-empty exactly when the fetched
content is (the code itself does not enforce non-emptiness). -/
theorem claim5_output_file (env : Env) (a : String) (fuel q : Nat)
    (url : String)
    (hsub : env.submitOk = true)
    (hp : poll env fuel 0 = some (q, PollOutcome.fetchResult (some url)))
    (hfetch : (env.fetch url).httpOk = true) :
    generate env a fuel
      = (some (GenResult.ok (OUT_DIR ++ "/" ++ normalize a ++ ".png")
            (env.fetch url).content),
         ⟨q, true,
          [(OUT_DIR ++ "/" ++ normalize a ++ ".png",
            (env.fetch url).content)]⟩) := by
  simp [generate, hsub, hp, hfetch]

/-- C6: provided every attempted subject terminates (returns or raises),
the batch loop records exactly one `generate` invocation per subject, in
list order, and a failing subject does not halt the batch: the list of
attempted subjects is the input list itself. -/
theorem claim6_batch_order (envOf : String → Env) (fuel : Nat)
    (animals : List String)
    (hterm : ∀ a ∈ animals, (generate (envOf a) a fuel).1.isSome = true) :
    mainLoop envOf fuel animals
        = (animals.map fun a => (a, generate (envOf a) a fuel))
      ∧ (mainLoop envOf fuel animals).map Prod.fst = animals := by
  have hmain := mainLoop_eq_map envOf fuel animals hterm
  refine ⟨hmain, ?_⟩
  rw [hmain, List.map_map,
    show (Prod.fst ∘ fun a => (a, generate (envOf a) a fuel)) = id from rfl,
    List.map_id]

/-- C9: the output directory is created only inside the success branch:
in a batch in which no recorded run saved a file, nothing was written and
the output directory was never created. -/
theorem claim9_no_writes_without_success (envOf : String → Env) (fuel : Nat)
    (animals : List String)
    (h : nothingSaved (mainLoop envOf fuel animals)) :
    noFilesystemEffects (mainLoop envOf fuel animals) := by
  intro e he
  have h2 := mem_mainLoop envOf fuel animals e he
  have h3 := h e he
  rw [h2] at h3 ⊢
  exact generate_not_saved_no_writes _ _ _ h3

/-- C10: a subject whose job reaches the success flag but whose success
response lacks the result URL, or whose result-URL fetch fails at the
HTTP level, is failed: an error is raised (and so reported by the batch
loop), no file is written, and the output directory is not created. -/
theorem claim10_download_failure (env : Env) (a : String) (fuel q : Nat)
    (u : Option String)
    (hsub : env.submitOk = true)
    (hp : poll env fuel 0 = some (q, PollOutcome.fetchResult u))
    (hbad : u = none
        ∨ ∃ url, u = some url ∧ (env.fetch url).httpOk = false) :
    isError (generate env a fuel).1 = true
      ∧ (generate env a fuel).2.mkdirCalled = false
      ∧ (generate env a fuel).2.writes = [] := by
  rcases hbad with rfl | ⟨url, rfl, hf⟩
  · refine ⟨?_, ?_, ?_⟩ <;> simp [generate, hsub, hp, isError]
  · refine ⟨?_, ?_, ?_⟩ <;> simp [generate, hsub, hp, hf, isError]

/-! ## Concrete environments used by witnesses and counterexamples -/

/-- A pending status payload without a successFlag at all. -/
def pendingNoFlag : StatusResp := ⟨true, ⟨none, none, none⟩⟩

/-- A pending status payload with a non-terminal flag value. -/
def pendingZero : StatusResp := ⟨true, ⟨some 0, none, none⟩⟩

/-- A success status payload carrying a result URL. -/
def successResp : StatusResp := ⟨true, ⟨some 1, none, some "http://img/ok.png"⟩⟩

/-- A failure status payload (flag 2) carrying an error message. -/
def failureResp : StatusResp := ⟨true, ⟨some 2, some "boom", none⟩⟩

/-- A status response that fails at the HTTP level, with no payload. -/
def httpFailResp : StatusResp := ⟨false, ⟨none, none, none⟩⟩

/-- Two pending responses (one with the flag absent, one with flag 0),
then success; the fetched image is a four-byte blob. -/
def envPendingThenSuccess : Env where
  submitOk := true
  statuses := fun i =>
    if i = 0 then pendingNoFlag else if i = 1 then pendingZero else successResp
  fetch := fun _ => ⟨true, [137, 80, 78, 71]⟩

/-- One pending response, then a remote-reported failure. -/
def envPendingThenFail : Env where
  submitOk := true
  statuses := fun i => if i = 0 then pendingZero else failureResp
  fetch := fun _ => ⟨true, []⟩

/-- The submission call itself fails. -/
def envSubmitFail : Env where
  submitOk := false
  statuses := fun _ => pendingZero
  fetch := fun _ => ⟨true, []⟩

/-- Immediate success with a non-empty downloaded image. -/
def envSuccess : Env where
  submitOk := true
  statuses := fun _ => successResp
  fetch := fun _ => ⟨true, [137, 80, 78, 71]⟩

/-- Every status query fails at the HTTP level and no response ever
carries any successFlag. -/
def envHttpFail : Env where
  submitOk := true
  statuses := fun _ => httpFailResp
  fetch := fun _ => ⟨true, []⟩

/-- Immediate success, but the result URL serves zero bytes. -/
def envEmptyImage : Env where
  submitOk := true
  statuses := fun _ => successResp
  fetch := fun _ => ⟨true, []⟩

/-- Immediate success, but fetching the result URL fails at the HTTP
level. -/
def envDownloadFail : Env where
  submitOk := true
  statuses := fun _ => successResp
  fetch := fun _ => ⟨false, []⟩

/-- A batch environment in which the subject Dog fails at submission and
every other subject succeeds. -/
def envOfMixed (a : String) : Env := if a = "Dog" then envSubmitFail else envSuccess

/-! ## Witnesses and counterexamples -/

/-- Witness for C1: two pending responses (flag absent, then flag 0)
followed by flag 1 give exactly three status queries before the fetch. -/
theorem claim1_witness :
    poll envPendingThenSuccess 5 0
        = some (2 + 1,
            PollOutcome.fetchResult
              (envPendingThenSuccess.statuses 2).data.resultImageUrl)
      ∧ (generate envPendingThenSuccess "Red Panda" 5).2.statusQueries = 2 + 1 :=
  claim1_poll_count envPendingThenSuccess "Red Panda" 2 5 rfl (by decide)
    (by decide) (by decide) (by decide)

/-- Witness for C2: a pending response followed by flag 2 yields the
task-failure error carrying the message boom, and no write. -/
theorem claim2_witness :
    generate envPendingThenFail "dog" 9
      = (some (GenResult.err (GenError.taskFailed
            (envPendingThenFail.statuses 1).data.errorMessage)),
         ⟨1 + 1, false, []⟩) :=
  claim2_failure_surfaced envPendingThenFail "dog" 1 9 rfl (by decide)
    (by decide) (Or.inl (by decide)) (by decide)

/-- Counterexample to C3 as stated: here no status response ever carries
a terminal flag, yet the routine terminates after one query, because the
first status query fails at the HTTP level and raising ends the loop. -/
theorem claim3_counterexample :
    neverTerminal envHttpFail
      ∧ (generate envHttpFail "fox" 1).1
          = some (GenResult.err GenError.statusHttpError)
      ∧ (generate envHttpFail "fox" 1).2.statusQueries = 1 :=
  ⟨fun _ => show pending httpFailResp.data by decide, by decide, by decide⟩

/-- Witness for C4: a failed submission yields the submission error with
zero status queries and no filesystem effect. -/
theorem claim4_witness :
    generate envSubmitFail "cat" 7
      = (some (GenResult.err GenError.submitHttpError), ⟨0, false, []⟩) :=
  claim4_submit_failure envSubmitFail "cat" 7 rfl

/-- Counterexample to C5 as stated: a subject that completes successfully
while the result URL serves zero bytes gets a single, empty output file. -/
theorem claim5_counterexample :
    isSaved (generate envEmptyImage "dog" 1).1 = true
      ∧ (generate envEmptyImage "dog" 1).2.writes
          = [("generated_avatars/dog.png", [])] :=
  ⟨by decide, by decide⟩

/-- Witness for the amended C5: a successful run writes exactly one file,
at the normalized path, containing the fetched bytes. -/
theorem claim5_witness :
    generate envSuccess "Red Panda" 1
      = (some (GenResult.ok (OUT_DIR ++ "/" ++ normalize "Red Panda" ++ ".png")
            (envSuccess.fetch "http://img/ok.png").content),
         ⟨1, true,
          [(OUT_DIR ++ "/" ++ normalize "Red Panda" ++ ".png",
            (envSuccess.fetch "http://img/ok.png").content)]⟩) :=
  claim5_output_file envSuccess "Red Panda" 1 1 "http://img/ok.png" rfl
    (by decide) rfl

/-- Witness for C6: Dog fails at submission, Cat succeeds; both are
attempted, in order. -/
theorem claim6_witness :
    mainLoop envOfMixed 1 ["Dog", "Cat"]
        = (["Dog", "Cat"].map fun a => (a, generate (envOfMixed a) a 1))
      ∧ (mainLoop envOfMixed 1 ["Dog", "Cat"]).map Prod.fst = ["Dog", "Cat"] :=
  claim6_batch_order envOfMixed 1 ["Dog", "Cat"] (by decide)

/-- Witness for C9: a batch whose subjects all end in a remote-reported
failure performs no filesystem effect at all. -/
theorem claim9_witness :
    noFilesystemEffects (mainLoop (fun _ => envPendingThenFail) 9 ["ant", "bee"]) :=
  claim9_no_writes_without_success (fun _ => envPendingThenFail) 9 ["ant", "bee"]
    (by decide)

/-- Witness for C10: the job succeeds but the result-URL fetch returns an
HTTP error; the subject errors out and nothing is written. -/
theorem claim10_witness :
    isError (generate envDownloadFail "owl" 1).1 = true
      ∧ (generate envDownloadFail "owl" 1).2.mkdirCalled = false
      ∧ (generate envDownloadFail "owl" 1).2.writes = [] :=
  claim10_download_failure envDownloadFail "owl" 1 1 (some "http://img/ok.png") rfl
    (by decide) (Or.inr ⟨"http://img/ok.png", rfl, rfl⟩)

end NanoIcons
